import Mathlib

/-!
Verification of the Code-Sage detection and aggregation engine.

This file gives a shallow embedding of the core data model and operations of
the repository (code_sage/core/models.py, aggregator.py, pattern_matcher.py,
engine.py, analyzers/python_analyzer.py) and proves or refutes the stated
properties of the aggregator, the pattern matcher, the engine pipeline and the
Python AST analyzer.

Modelling conventions:
- Python floats that only ever hold exact small values (confidence, weights,
  durations) are modelled as rationals.
- External library calls (compiled regular expressions via re, the md5 digest)
  are modelled as function parameters: a compiled pattern becomes a function
  from a line to the list of match spans, and the 12-character md5 digest
  becomes a function from the hashed string to an id string.
- Fallible Python code is modelled with Except; Python rich-comparison
  dispatch is modelled explicitly where a claim depends on it.
-/

namespace CodeSage

/-- Severity levels (models.py, class IssueSeverity). -/
inductive IssueSeverity where
| critical
| high
| medium
| low
| info
deriving DecidableEq, Repr

/-- The ordering list inside IssueSeverity.__lt__ (models.py lines 20-26). -/
def severity_order : List IssueSeverity :=
[IssueSeverity.info, IssueSeverity.low, IssueSeverity.medium,
 IssueSeverity.high, IssueSeverity.critical]

/-- models.py IssueSeverity.__lt__: compare positions in severity_order. -/
def severity_lt (a b : IssueSeverity) : Bool :=
decide (severity_order.indexOf a < severity_order.indexOf b)

/-- Issue categories (models.py, class IssueCategory). -/
inductive IssueCategory where
| security
| bug
| code_smell
| type_error
| style
| performance
| best_practice
| duplication
| complexity
| maintainability
deriving DecidableEq, Repr

/-- The .value string of each IssueCategory member. -/
def category_value : IssueCategory → String
| IssueCategory.security => "security"
| IssueCategory.bug => "bug"
| IssueCategory.code_smell => "code_smell"
| IssueCategory.type_error => "type_error"
| IssueCategory.style => "style"
| IssueCategory.performance => "performance"
| IssueCategory.best_practice => "best_practice"
| IssueCategory.duplication => "duplication"
| IssueCategory.complexity => "complexity"
| IssueCategory.maintainability => "maintainability"

/-- models.py, dataclass CodeLocation. -/
structure CodeLocation where
  file_path : String
  line_start : Nat
  line_end : Nat
  column_start : Option Nat := none
  column_end : Option Nat := none
deriving DecidableEq, Repr

/-- models.py, dataclass CodeMetrics (float fields as rationals). -/
structure CodeMetrics where
  lines_of_code : Nat := 0
  source_lines_of_code : Nat := 0
  comment_lines : Nat := 0
  blank_lines : Nat := 0
  cyclomatic_complexity : ℚ := 0
  cognitive_complexity : ℚ := 0
  maintainability_index : ℚ := 0
  halstead_difficulty : ℚ := 0
  halstead_effort : ℚ := 0
deriving DecidableEq, Repr

/-- models.py, dataclass Issue (metadata modelled as an association list). -/
structure Issue where
  id : String
  title : String
  description : String
  severity : IssueSeverity
  category : IssueCategory
  location : CodeLocation
  code_snippet : Option String := none
  suggested_fix : Option String := none
  fix_description : Option String := none
  ai_explanation : Option String := none
  confidence : ℚ := 1
  auto_fixable : Bool := false
  rule_id : Option String := none
  references : List String := []
  metadata : List (String × String) := []
deriving DecidableEq, Repr

/-- models.py, dataclass FileAnalysis. -/
structure FileAnalysis where
  file_path : String
  language : String
  issues : List Issue := []
  metrics : Option CodeMetrics := none
  analysis_time : ℚ := 0
  success : Bool := true
  error : Option String := none
deriving DecidableEq, Repr

/-- aggregator.py IssueAggregator._get_issue_signature:
the f-string file_path:line_start:title:category.value. -/
def _get_issue_signature (issue : Issue) : String :=
issue.location.file_path ++ ":" ++ toString issue.location.line_start ++ ":" ++
  issue.title ++ ":" ++ category_value issue.category

/-- Loop body of aggregator.py deduplicate_issues: walk the list keeping a set
of seen signature strings, keeping the first occurrence of each. -/
def dedupGo (seen : List String) : List Issue → List Issue
| [] => []
| i :: rest =>
  if _get_issue_signature i ∈ seen then dedupGo seen rest
  else i :: dedupGo (_get_issue_signature i :: seen) rest

/-- aggregator.py IssueAggregator.deduplicate_issues. -/
def deduplicate_issues (issues : List Issue) : List Issue :=
dedupGo [] issues

/-- severity_weights dict in aggregator.py rank_issues. -/
def severity_weights : IssueSeverity → ℚ
| IssueSeverity.critical => 100
| IssueSeverity.high => 75
| IssueSeverity.medium => 50
| IssueSeverity.low => 25
| IssueSeverity.info => 10

/-- category_weights dict in aggregator.py rank_issues. -/
def category_weights : IssueCategory → ℚ
| IssueCategory.security => 20
| IssueCategory.bug => 15
| IssueCategory.type_error => 10
| IssueCategory.performance => 8
| IssueCategory.best_practice => 5
| IssueCategory.code_smell => 3
| IssueCategory.style => 1
| IssueCategory.duplication => 2
| IssueCategory.complexity => 4
| IssueCategory.maintainability => 3

/-- calculate_priority in aggregator.py rank_issues: the severity and category
weights are summed, multiplied by confidence, plus 5 if auto_fixable. -/
def calculate_priority (issue : Issue) : ℚ :=
(severity_weights issue.severity + category_weights issue.category) * issue.confidence
  + (if issue.auto_fixable then 5 else 0)

/-- The ordering relation realised by sorted(key=calculate_priority, reverse=True):
a may come before b when the priority of b does not exceed that of a. -/
def rank_le (a b : Issue) : Prop :=
calculate_priority b ≤ calculate_priority a

instance : DecidableRel rank_le :=
fun a b => inferInstanceAs (Decidable (calculate_priority b ≤ calculate_priority a))

instance : IsTotal Issue rank_le :=
⟨fun a b => le_total (calculate_priority b) (calculate_priority a)⟩

instance : IsTrans Issue rank_le :=
⟨fun _ _ _ h1 h2 => le_trans h2 h1⟩

/-- aggregator.py IssueAggregator.rank_issues: Python sorted with a key and
reverse=True is the stable descending sort, i.e. insertion sort for rank_le
(a later element is inserted after every earlier element of equal priority). -/
def rank_issues (issues : List Issue) : List Issue :=
issues.insertionSort rank_le

/-- The rich-comparison slots a Python class defines (absent slot = inherited
object slot, which returns NotImplemented). -/
structure RichCmp (α : Type) where
  lt : Option (α → α → Bool)
  le : Option (α → α → Bool)
  gt : Option (α → α → Bool)
  ge : Option (α → α → Bool)

/-- models.py defines __lt__ on IssueSeverity and no other ordering slot. -/
def severity_cmp : RichCmp IssueSeverity :=
{ lt := some severity_lt, le := none, gt := none, ge := none }

/-- Python evaluation of a >= b: try the __ge__ slot, then the reflected
__le__ slot on the right operand; when both are absent the comparison raises
TypeError. -/
def pyGE {α : Type} (c : RichCmp α) (a b : α) : Except String Bool :=
match c.ge with
| some f => Except.ok (f a b)
| none =>
  match c.le with
  | some f => Except.ok (f b a)
  | none => Except.error "TypeError: >= not supported between instances of IssueSeverity"

/-- A list comprehension whose predicate may raise: the first raise aborts. -/
def filterE {α : Type} (p : α → Except String Bool) : List α → Except String (List α)
| [] => Except.ok []
| a :: l =>
  match p a with
  | Except.error e => Except.error e
  | Except.ok b =>
    match filterE p l with
    | Except.error e => Except.error e
    | Except.ok r => Except.ok (if b then a :: r else r)

/-- aggregator.py IssueAggregator.filter_issues.  The min_severity branch
evaluates i.severity >= min_severity through Python rich comparison (which can
raise); an empty provided category list is falsy in Python, so it disables the
category predicate exactly as the source `if categories:` does. -/
def filter_issues (issues : List Issue) (min_severity : Option IssueSeverity)
    (categories : Option (List IssueCategory)) (auto_fixable_only : Bool) :
    Except String (List Issue) :=
match (match min_severity with
       | none => Except.ok issues
       | some ms => filterE (fun i => pyGE severity_cmp i.severity ms) issues) with
| Except.error e => Except.error e
| Except.ok f1 =>
  let f2 := match categories with
    | none => f1
    | some cats =>
      if cats.isEmpty then f1
      else f1.filter (fun i => decide (i.category ∈ cats))
  let f3 := if auto_fixable_only then f2.filter (fun i => i.auto_fixable) else f2
  Except.ok f3

/-- pattern_matcher.py, dataclass PatternRule (the compiled regex behaviour is
supplied separately, see PatternMatcherState). -/
structure PatternRule where
  id : String
  name : String
  description : String
  pattern : String
  severity : IssueSeverity
  category : IssueCategory
  languages : List String
  message : String
  fix_suggestion : Option String := none
  auto_fixable : Bool := false
  flags : Nat := 0
deriving DecidableEq, Repr

/-- The first rule of the default catalog (pattern_matcher.py lines 44-55).
re.IGNORECASE is the flag value 2. -/
def hardcoded_password_rule : PatternRule :=
{ id := "hardcoded-password",
  name := "Hardcoded Password",
  description := "Potential hardcoded password detected",
  pattern := "(password|passwd|pwd)\\s*=\\s*[\"\\x27][^\"\\x27]+[\"\\x27]",
  severity := IssueSeverity.critical,
  category := IssueCategory.security,
  languages := ["python", "javascript", "typescript", "java"],
  message := "Hardcoded password detected. Use environment variables or secrets management.",
  fix_suggestion := some "Store passwords in environment variables or use a secrets management service",
  flags := 2 }

/-- The default rule catalog (pattern_matcher.py _load_default_rules). -/
def default_rules : List PatternRule :=
hardcoded_password_rule ::
[{ id := "hardcoded-api-key",
   name := "Hardcoded API Key",
   description := "Potential hardcoded API key detected",
   pattern := "(api[_-]?key|apikey|access[_-]?key)\\s*=\\s*[\"\\x27][A-Za-z0-9]\\x7b20,\\x7d[\"\\x27]",
   severity := IssueSeverity.critical,
   category := IssueCategory.security,
   languages := ["python", "javascript", "typescript", "java", "go"],
   message := "Hardcoded API key detected",
   fix_suggestion := some "Use environment variables or a secrets manager",
   flags := 2 },
 { id := "sql-string-concat",
   name := "SQL String Concatenation",
   description := "SQL query built with string concatenation",
   pattern := "(SELECT|INSERT|UPDATE|DELETE).*\\+.*[\"\\x27]",
   severity := IssueSeverity.high,
   category := IssueCategory.security,
   languages := ["python", "javascript", "typescript", "java", "php"],
   message := "SQL injection vulnerability: Use parameterized queries",
   fix_suggestion := some "Use parameterized queries or an ORM",
   flags := 2 },
 { id := "debug-print",
   name := "Debug Print Statement",
   description := "Debug print statement found",
   pattern := "(print|console\\.log|System\\.out\\.println)\\(",
   severity := IssueSeverity.low,
   category := IssueCategory.code_smell,
   languages := ["python", "javascript", "typescript", "java"],
   message := "Debug print statement should be removed or replaced with proper logging",
   fix_suggestion := some "Use a logging library instead of print statements",
   auto_fixable := true },
 { id := "todo-comment",
   name := "TODO Comment",
   description := "TODO comment found",
   pattern := "#\\s*TODO|//\\s*TODO|/\\*\\s*TODO",
   severity := IssueSeverity.info,
   category := IssueCategory.maintainability,
   languages := ["python", "javascript", "typescript", "java", "go", "rust"],
   message := "TODO comment found - consider creating a task or issue",
   flags := 2 },
 { id := "fixme-comment",
   name := "FIXME Comment",
   description := "FIXME comment found",
   pattern := "#\\s*FIXME|//\\s*FIXME|/\\*\\s*FIXME",
   severity := IssueSeverity.medium,
   category := IssueCategory.bug,
   languages := ["python", "javascript", "typescript", "java", "go", "rust"],
   message := "FIXME comment indicates a known issue that needs attention",
   flags := 2 },
 { id := "except-pass",
   name := "Empty Exception Handler",
   description := "Exception caught but not handled",
   pattern := "except.*:\\s*pass",
   severity := IssueSeverity.medium,
   category := IssueCategory.best_practice,
   languages := ["python"],
   message := "Empty exception handler - at least log the error",
   fix_suggestion := some "Add logging or proper error handling" },
 { id := "catch-empty",
   name := "Empty Catch Block",
   description := "Exception caught but not handled",
   pattern := "catch\\s*\\([^)]+\\)\\s*\\x7b\\s*\\x7d",
   severity := IssueSeverity.medium,
   category := IssueCategory.best_practice,
   languages := ["javascript", "typescript", "java"],
   message := "Empty catch block - at least log the error",
   fix_suggestion := some "Add logging or proper error handling" }]

/-- Python str.splitlines restricted to newline-separated text, over the
character list: each newline ends a line, and a final fragment is kept only
when non-empty. -/
def pySplitlinesAux (cur : List Char) : List Char → List String
| [] => if cur.isEmpty then [] else [String.mk cur.reverse]
| c :: cs =>
  if c = Char.ofNat 10 then String.mk cur.reverse :: pySplitlinesAux [] cs
  else pySplitlinesAux (c :: cur) cs

/-- content.splitlines() as used by pattern_matcher.py match_file. -/
def pySplitlines (s : String) : List String :=
pySplitlinesAux [] s.data

/-- enumerate(lines, start=n). -/
def enumFrom {α : Type} (n : Nat) : List α → List (Nat × α)
| [] => []
| x :: xs => (n, x) :: enumFrom (n + 1) xs

/-- The width-4 right-justified rendering in the f-string of _get_snippet. -/
def padLeft4 (s : String) : String :=
if s.length < 4 then String.mk (List.replicate (4 - s.length) ' ') ++ s else s

/-- pattern_matcher.py PatternMatcher._get_snippet with the default context 2. -/
def _get_snippet (lines : List String) (line_num : Nat) : String :=
let start := line_num - 1 - 2
let stop := min lines.length (line_num + 2)
String.intercalate "\n" ((List.range' start (stop - start)).map (fun i =>
  (if i = line_num - 1 then "→ " else "  ") ++ padLeft4 (toString (i + 1)) ++ " | " ++
    ((lines.get? i).getD "")))

/-- pattern_matcher.py PatternMatcher._generate_issue_id, with digest standing
for the md5 hexdigest truncated to 12 characters. -/
def _generate_issue_id (digest : String → String) (file_path rule_id : String)
    (line : Nat) : String :=
digest (file_path ++ ":" ++ rule_id ++ ":" ++ toString line)

/-- The Issue record built for one regex match in match_file
(pattern_matcher.py lines 184-201); sp is the (start, end) span. -/
def pattern_issue (digest : String → String) (file_path : String) (rule : PatternRule)
    (lines : List String) (line_num : Nat) (sp : Nat × Nat) : Issue :=
{ id := _generate_issue_id digest file_path rule.id line_num,
  title := rule.name,
  description := rule.message,
  severity := rule.severity,
  category := rule.category,
  location :=
    { file_path := file_path, line_start := line_num, line_end := line_num,
      column_start := some sp.1, column_end := some sp.2 },
  code_snippet := some (_get_snippet lines line_num),
  suggested_fix := rule.fix_suggestion,
  auto_fixable := rule.auto_fixable,
  rule_id := some rule.id }

/-- The state of a PatternMatcher: its rule list and the behaviour of the
_compiled_patterns dict, keyed by rule id; a compiled pattern is modelled by
the function taking a line to the spans of its matches in order. -/
structure PatternMatcherState where
  rules : List PatternRule
  compiled : String → Option (String → List (Nat × Nat))

/-- pattern_matcher.py PatternMatcher.match_file: rules not listing the
language are skipped, rules without a compiled pattern are skipped, and each
match of a rule on each 1-based line yields one Issue. -/
def match_file (m : PatternMatcherState) (digest : String → String)
    (file_path content language : String) : List Issue :=
let lines := pySplitlines content
m.rules.flatMap (fun rule =>
  if language ∈ rule.languages then
    match m.compiled rule.id with
    | some pat =>
      (enumFrom 1 lines).flatMap (fun p =>
        (pat p.2).map (fun sp => pattern_issue digest file_path rule lines p.1 sp))
    | none => []
  else [])

/-- A Python SyntaxError as raised by ast.parse: message, optional line,
optional column offset. -/
structure PySyntaxError where
  msg : String
  lineno : Option Nat
  offset : Option Nat
deriving DecidableEq, Repr

/-- The Python expression (e.lineno or 1): None and 0 are falsy. -/
def linenoOr1 : Option Nat → Nat
| none => 1
| some n => if n = 0 then 1 else n

/-- The possible outcomes of the body of PythonAnalyzer.analyze_file:
a successful parse with the issues appended by the check battery and the
computed metrics, a SyntaxError raised by ast.parse, or any other exception. -/
inductive PyAnalyzeOutcome where
| parsed (issues : List Issue) (metrics : CodeMetrics)
| parseError (e : PySyntaxError)
| otherError (msg : String)
deriving Repr

/-- The Issue built in the SyntaxError handler of PythonAnalyzer.analyze_file
(python_analyzer.py lines 74-88); snippet stands for the file read done by
get_code_snippet. -/
def parse_error_issue (digest : String → String) (snippet fp : String)
    (e : PySyntaxError) : Issue :=
{ id := digest (fp ++ ":syntax:" ++ toString (linenoOr1 e.lineno)),
  title := "Python Syntax Error",
  description := e.msg,
  severity := IssueSeverity.critical,
  category := IssueCategory.bug,
  location :=
    { file_path := fp, line_start := linenoOr1 e.lineno, line_end := linenoOr1 e.lineno,
      column_start := e.offset, column_end := none },
  code_snippet := some snippet,
  auto_fixable := false }

/-- python_analyzer.py PythonAnalyzer.analyze_file over the three outcome
branches of its try statement. -/
def analyzer_analyze_file (digest : String → String) (snippet fp : String) :
    PyAnalyzeOutcome → FileAnalysis
| PyAnalyzeOutcome.parsed issues metrics =>
  { file_path := fp, language := "python", issues := issues,
    metrics := some metrics, success := true }
| PyAnalyzeOutcome.parseError e =>
  { file_path := fp, language := "python",
    issues := [parse_error_issue digest snippet fp e], success := true }
| PyAnalyzeOutcome.otherError msg =>
  { file_path := fp, language := "python", success := false, error := some msg }

/-- The FileAnalysis built by BaseAnalyzer.analyze_with_timing when
analyze_file raises (analyzer.py lines 80-88). -/
def analyze_with_timing_failure (fp lang msg : String) : FileAnalysis :=
{ file_path := fp, language := lang, success := false, error := some msg }

/-- engine.py AnalysisEngine.analyze_file after detector selection: with no
analyzer a synthetic failed record is returned and pattern matching is not
run; otherwise the pattern issues (none when reading or matching raised) are
appended to the analyzer record, regardless of its success flag. -/
def engine_analyze_file (fp : String) (analyzer_result : Option FileAnalysis)
    (pattern_result : Option (List Issue)) : FileAnalysis :=
match analyzer_result with
| none =>
  { file_path := fp, language := "unknown", success := false,
    error := some "No analyzer available for this file type" }
| some fa =>
  match pattern_result with
  | some ps => { fa with issues := fa.issues ++ ps }
  | none => fa

/-- models.py, dataclass AnalysisResult (the fields the claims touch;
languages is the per-language file count mapping). -/
structure AnalysisResult where
  project_path : String
  file_analyses : List FileAnalysis
  total_files : Nat
  total_issues : Nat
  total_time : ℚ
  languages : String → Nat

/-- AnalysisResult(project_path=...) with dataclass defaults. -/
def empty_result (p : String) : AnalysisResult :=
{ project_path := p, file_analyses := [], total_files := 0, total_issues := 0,
  total_time := 0, languages := fun _ => 0 }

/-- models.py AnalysisResult.add_file_analysis. -/
def add_file_analysis (r : AnalysisResult) (fa : FileAnalysis) : AnalysisResult :=
{ r with
  file_analyses := r.file_analyses ++ [fa],
  total_files := r.total_files + 1,
  total_issues := r.total_issues + fa.issues.length,
  total_time := r.total_time + fa.analysis_time,
  languages := fun l => if l = fa.language then r.languages l + 1 else r.languages l }

/-- models.py AnalysisResult.get_all_issues. -/
def get_all_issues (fas : List FileAnalysis) : List Issue :=
(fas.map (fun fa => fa.issues)).flatten

/-- models.py AnalysisResult.get_severity_counts, as the count for one
severity value. -/
def get_severity_counts (fas : List FileAnalysis) (s : IssueSeverity) : Nat :=
(get_all_issues fas).countP (fun i => decide (i.severity = s))

/-- Iteration order of the IssueSeverity enum (declaration order), used when
get_severity_counts builds its dict. -/
def severity_list : List IssueSeverity :=
[IssueSeverity.critical, IssueSeverity.high, IssueSeverity.medium,
 IssueSeverity.low, IssueSeverity.info]

/-- engine.py AnalysisEngine._update_file_analyses_with_ranked_issues: the
issues_by_file dict sends each path to the ranked issues with that path in
ranked order, and every record receives issues_by_file.get(path, []), which is
the ranked list filtered to the record path. -/
def update_file_analyses (records : List FileAnalysis) (ranked : List Issue) :
    List FileAnalysis :=
records.map (fun fa =>
  { fa with issues := ranked.filter (fun i => decide (i.location.file_path = fa.file_path)) })

/-- engine.py AnalysisEngine.analyze_path from the point where the per-file
records are known: add each record (accumulating total_issues), pool all
issues, deduplicate, rank, and re-partition the ranked issues onto the
records; total_issues is not recomputed afterwards. -/
def analyze_path_model (project_path : String) (fas : List FileAnalysis) :
    AnalysisResult :=
let r := fas.foldl add_file_analysis (empty_result project_path)
let all_issues := get_all_issues r.file_analyses
let unique := deduplicate_issues all_issues
let ranked := rank_issues unique
{ r with file_analyses := update_file_analyses r.file_analyses ranked }

/-! Concrete inputs used by counterexamples and witnesses. -/

/-- A file line that the hardcoded-password rule matches. -/
def pw_text : String := "password = \"super_secret_123\""

def sample_location : CodeLocation :=
{ file_path := "a", line_start := 1, line_end := 1 }

/-- First half of a signature collision: file a, line 1, title b:2:c, style. -/
def c3_issue1 : Issue :=
{ id := "i1", title := "b:2:c", description := "", severity := IssueSeverity.low,
  category := IssueCategory.style, location := sample_location }

/-- Second half of the collision: file a:1:b, line 2, title c, style; its
signature string coincides with that of c3_issue1 though the tuples differ. -/
def c3_issue2 : Issue :=
{ id := "i2", title := "c", description := "", severity := IssueSeverity.low,
  category := IssueCategory.style,
  location := { file_path := "a:1:b", line_start := 2, line_end := 2 } }

def c4_issue : Issue :=
{ id := "x", title := "t", description := "", severity := IssueSeverity.high,
  category := IssueCategory.bug, location := sample_location }

/-- A failed analyzer record for a readable file (analyze_with_timing caught
an exception inside the Python analyzer). -/
def c5_failed : FileAnalysis :=
analyze_with_timing_failure "f.py" "python" "analyzer crashed"

/-- The pattern issue the engine appends for that same file. -/
def c5_pattern_issue : Issue :=
pattern_issue (fun s => s) "f.py" hardcoded_password_rule (pySplitlines pw_text) 1 (0, 29)

/-- The record analyze_file returns: a failed analyzer result with the
pattern-matcher issues appended. -/
def c5_record : FileAnalysis :=
engine_analyze_file "f.py" (some c5_failed) (some [c5_pattern_issue])

def c6_rule : PatternRule :=
{ id := "r1", name := "R1", description := "", pattern := "x",
  severity := IssueSeverity.low, category := IssueCategory.style,
  languages := ["python"], message := "m" }

def c6_pat : String → List (Nat × Nat) :=
fun line => if line = "x" then [(0, 1)] else []

def c6_state : PatternMatcherState :=
{ rules := [c6_rule], compiled := fun rid => if rid = "r1" then some c6_pat else none }

def c6_issue : Issue :=
pattern_issue (fun s => s) "f.py" c6_rule (pySplitlines "x") 1 (0, 1)

/-- A compiled pattern with two matches on the same line, at offsets 0 and 1. -/
def c9_pat : String → List (Nat × Nat) :=
fun line => if line = "xx" then [(0, 1), (1, 2)] else []

def c9_state : PatternMatcherState :=
{ rules := [c6_rule], compiled := fun rid => if rid = "r1" then some c9_pat else none }

def c10_issue : Issue :=
{ id := "d1", title := "Dup", description := "", severity := IssueSeverity.high,
  category := IssueCategory.bug,
  location := { file_path := "a.py", line_start := 3, line_end := 3 } }

/-- One file record carrying the same issue twice, so that global
deduplication removes one occurrence. -/
def c10_fa : FileAnalysis :=
{ file_path := "a.py", language := "python", issues := [c10_issue, c10_issue] }

/-! Theorems. -/

/-- C1: rank_issues returns a permutation of its input that is sorted in
descending order of the priority score (severity weight plus category weight,
multiplied by confidence, plus a flat 5 when the issue is auto-fixable, with
the severity and category weight tables of aggregator.py). -/
theorem C1_rank_issues_sorted_by_priority (l : List Issue) :
    (rank_issues l).Perm l ∧
    (rank_issues l).Pairwise (fun a b =>
      (severity_weights b.severity + category_weights b.category) * b.confidence
          + (if b.auto_fixable then 5 else 0)
        ≤ (severity_weights a.severity + category_weights a.category) * a.confidence
          + (if a.auto_fixable then 5 else 0)) :=
⟨List.perm_insertionSort rank_le l, List.sorted_insertionSort rank_le l⟩

/-- Filtering to one priority value commutes with inserting an element:
every element the insertion walks past has strictly larger priority. -/
lemma filter_priority_orderedInsert (k : ℚ) (a : Issue) (l : List Issue) :
    (l.orderedInsert rank_le a).filter (fun i => decide (calculate_priority i = k))
      = if calculate_priority a = k
        then a :: l.filter (fun i => decide (calculate_priority i = k))
        else l.filter (fun i => decide (calculate_priority i = k)) := by
  induction l with
  | nil =>
    by_cases ha : calculate_priority a = k <;>
      simp [List.orderedInsert, List.filter, ha]
  | cons b t ih =>
    by_cases hr : rank_le a b
    · simp only [List.orderedInsert, if_pos hr]
      by_cases ha : calculate_priority a = k <;>
        simp [List.filter, ha]
    · have hlt : calculate_priority a < calculate_priority b := not_le.mp hr
      simp only [List.orderedInsert, if_neg hr]
      by_cases ha : calculate_priority a = k
      · have hb : ¬ calculate_priority b = k := by
          intro hbk
          rw [ha, hbk] at hlt
          exact lt_irrefl k hlt
        simp [List.filter, ha, hb, ih]
      · simp [List.filter, ha, ih]

/-- C2: rank_issues is a stable sort: for every priority value, the sequence
of issues with that computed priority is unchanged. -/
theorem C2_rank_issues_stable (l : List Issue) (k : ℚ) :
    (rank_issues l).filter (fun i => decide (calculate_priority i = k))
      = l.filter (fun i => decide (calculate_priority i = k)) := by
  induction l with
  | nil => rfl
  | cons a t ih =>
    have h1 : rank_issues (a :: t) = (rank_issues t).orderedInsert rank_le a := rfl
    rw [h1, filter_priority_orderedInsert]
    by_cases ha : calculate_priority a = k <;> simp [List.filter, ha, ih]

lemma dedupGo_sublist (seen : List String) (l : List Issue) :
    (dedupGo seen l).Sublist l := by
  induction l generalizing seen with
  | nil => simp [dedupGo]
  | cons i rest ih =>
    simp only [dedupGo]
    by_cases h : _get_issue_signature i ∈ seen
    · rw [if_pos h]
      exact (ih seen).trans (List.sublist_cons_self i rest)
    · rw [if_neg h]
      exact (ih _).cons₂ i

lemma dedupGo_sig_not_seen (seen : List String) (l : List Issue) :
    ∀ i ∈ dedupGo seen l, _get_issue_signature i ∉ seen := by
  induction l generalizing seen with
  | nil => simp [dedupGo]
  | cons i rest ih =>
    intro j hj
    simp only [dedupGo] at hj
    by_cases h : _get_issue_signature i ∈ seen
    · rw [if_pos h] at hj
      exact ih seen j hj
    · rw [if_neg h] at hj
      rcases List.mem_cons.mp hj with hji | hji
      · exact hji ▸ h
      · have := ih (_get_issue_signature i :: seen) j hji
        exact fun hs => this (List.mem_cons_of_mem _ hs)

lemma dedupGo_pairwise (seen : List String) (l : List Issue) :
    (dedupGo seen l).Pairwise
      (fun a b => _get_issue_signature a ≠ _get_issue_signature b) := by
  induction l generalizing seen with
  | nil => simp [dedupGo]
  | cons i rest ih =>
    simp only [dedupGo]
    by_cases h : _get_issue_signature i ∈ seen
    · rw [if_pos h]
      exact ih seen
    · rw [if_neg h]
      refine List.Pairwise.cons ?_ (ih _)
      intro j hj
      have := dedupGo_sig_not_seen _ _ j hj
      exact fun he => this (he ▸ List.mem_cons_self _ _)

lemma dedupGo_eq_self (seen : List String) (l : List Issue)
    (hp : l.Pairwise (fun a b => _get_issue_signature a ≠ _get_issue_signature b))
    (hs : ∀ i ∈ l, _get_issue_signature i ∉ seen) :
    dedupGo seen l = l := by
  induction l generalizing seen with
  | nil => rfl
  | cons i rest ih =>
    simp only [dedupGo]
    rw [if_neg (hs i (List.mem_cons_self _ _))]
    congr 1
    refine ih _ (List.Pairwise.of_cons hp) ?_
    intro j hj hmem
    rcases List.mem_cons.mp hmem with he | he
    · exact (List.pairwise_cons.mp hp).1 j hj he.symm
    · exact hs j (List.mem_cons_of_mem _ hj) he

lemma dedupGo_find? (s : String) (seen : List String) (l : List Issue)
    (hs : s ∉ seen) :
    (dedupGo seen l).find? (fun i => decide (_get_issue_signature i = s))
      = l.find? (fun i => decide (_get_issue_signature i = s)) := by
  induction l generalizing seen with
  | nil => rfl
  | cons i rest ih =>
    simp only [dedupGo]
    by_cases h : _get_issue_signature i ∈ seen
    · rw [if_pos h]
      have hne : ¬ (_get_issue_signature i = s) := fun he => hs (he ▸ h)
      rw [List.find?_cons_of_neg _ (by simpa using hne), ih seen hs]
    · rw [if_neg h]
      by_cases he : _get_issue_signature i = s
      · rw [List.find?_cons_of_pos _ (by simpa using he),
          List.find?_cons_of_pos _ (by simpa using he)]
      · rw [List.find?_cons_of_neg _ (by simpa using he),
          List.find?_cons_of_neg _ (by simpa using he)]
        refine ih _ ?_
        intro hmem
        rcases List.mem_cons.mp hmem with h1 | h1
        · exact he h1.symm
        · exact hs h1

/-- C3 counterexample: deduplicate_issues drops c3_issue2 although its
signature tuple (file path, start line, title, category) differs from that of
c3_issue1 — the colon-joined signature strings collide, so the claim that
exactly the first issue per tuple is kept is false as stated. -/
theorem C3_counterexample :
    deduplicate_issues [c3_issue1, c3_issue2] = [c3_issue1] ∧
    ¬ (c3_issue1.location.file_path = c3_issue2.location.file_path ∧
       c3_issue1.location.line_start = c3_issue2.location.line_start ∧
       c3_issue1.title = c3_issue2.title ∧
       c3_issue1.category = c3_issue2.category) := by
  constructor
  · decide
  · decide

/-- C3 amended: deduplicate_issues keeps exactly the first issue in input
order for each signature STRING (the colon-joined rendering of file path,
start line, title and category value, which can conflate distinct tuples),
and it is idempotent. -/
theorem C3_dedup_first_wins_and_idempotent (l : List Issue) :
    deduplicate_issues (deduplicate_issues l) = deduplicate_issues l ∧
    (deduplicate_issues l).Sublist l ∧
    (deduplicate_issues l).Pairwise
      (fun a b => _get_issue_signature a ≠ _get_issue_signature b) ∧
    ∀ s : String,
      (deduplicate_issues l).find? (fun i => decide (_get_issue_signature i = s))
        = l.find? (fun i => decide (_get_issue_signature i = s)) := by
  refine ⟨?_, dedupGo_sublist [] l, dedupGo_pairwise [] l, ?_⟩
  · exact dedupGo_eq_self [] _ (dedupGo_pairwise [] l) (fun i _ => List.not_mem_nil _)
  · intro s
    exact dedupGo_find? s [] l (List.not_mem_nil _)

/-- C4 is a code bug: IssueSeverity defines only __lt__, so the expression
i.severity >= min_severity inside filter_issues raises TypeError whenever a
minimum severity is provided and the issue list is non-empty; the claimed
inclusive severity filtering never runs. -/
theorem C4_filter_min_severity_type_error :
    filter_issues [c4_issue] (some IssueSeverity.low) none false
      = Except.error "TypeError: >= not supported between instances of IssueSeverity" :=
rfl

lemma mem_enumFrom {α : Type} (k : Nat) (l : List α) (p : Nat × α) :
    p ∈ enumFrom k l ↔
      ∃ i, ∃ h : i < l.length, p.1 = k + i ∧ p.2 = l.get ⟨i, h⟩ := by
  induction l generalizing k with
  | nil => simp [enumFrom]
  | cons x xs ih =>
    simp only [enumFrom, List.mem_cons, ih]
    constructor
    · rintro (rfl | ⟨i, h, h1, h2⟩)
      · exact ⟨0, Nat.succ_pos _, by simp, rfl⟩
      · exact ⟨i + 1, Nat.succ_lt_succ h, by omega, h2⟩
    · rintro ⟨i, h, h1, h2⟩
      cases i with
      | zero =>
        left
        cases p
        simp only [List.get] at h2
        exact Prod.ext (by simpa using h1) (by simpa using h2)
      | succ j =>
        right
        exact ⟨j, Nat.lt_of_succ_lt_succ h, by omega, h2⟩

lemma mem_match_file_iff (m : PatternMatcherState) (digest : String → String)
    (fp content lang : String) (iss : Issue) :
    iss ∈ match_file m digest fp content lang ↔
      ∃ rule ∈ m.rules, lang ∈ rule.languages ∧
        ∃ pat, m.compiled rule.id = some pat ∧
        ∃ n, ∃ hn : n < (pySplitlines content).length,
        ∃ sp ∈ pat ((pySplitlines content).get ⟨n, hn⟩),
          iss = pattern_issue digest fp rule (pySplitlines content) (n + 1) sp := by
  unfold match_file
  rw [List.mem_flatMap]
  constructor
  · rintro ⟨rule, hrule, hmem⟩
    by_cases hl : lang ∈ rule.languages
    · rw [if_pos hl] at hmem
      cases hc : m.compiled rule.id with
      | none => rw [hc] at hmem; simp at hmem
      | some pat =>
        rw [hc] at hmem
        simp only [List.mem_flatMap, List.mem_map] at hmem
        rcases hmem with ⟨p, hp, sp, hsp, rfl⟩
        rcases (mem_enumFrom 1 _ p).mp hp with ⟨i, hi, h1, h2⟩
        refine ⟨rule, hrule, hl, pat, hc, i, hi, sp, ?_, ?_⟩
        · rw [← h2]; exact hsp
        · rw [h1, Nat.add_comm]
    · rw [if_neg hl] at hmem
      simp at hmem
  · rintro ⟨rule, hrule, hl, pat, hc, n, hn, sp, hsp, rfl⟩
    refine ⟨rule, hrule, ?_⟩
    rw [if_pos hl, hc]
    simp only [List.mem_flatMap, List.mem_map]
    refine ⟨(n + 1, (pySplitlines content).get ⟨n, hn⟩), ?_, sp, hsp, rfl⟩
    exact (mem_enumFrom 1 _ _).mpr ⟨n, hn, by omega, rfl⟩

/-- C6: an issue is produced by match_file exactly when some rule of the
matcher lists the language, has a compiled pattern, and that pattern has a
match span on some line; the issue is then the record built for that match:
located at the 1-based line, carrying the match column span, with an id
derived deterministically from (file path, rule id, line). -/
theorem C6_match_file_characterization (m : PatternMatcherState)
    (digest : String → String) (fp content lang : String) (iss : Issue) :
    iss ∈ match_file m digest fp content lang ↔
      ∃ rule ∈ m.rules, lang ∈ rule.languages ∧
        ∃ pat, m.compiled rule.id = some pat ∧
        ∃ n, ∃ hn : n < (pySplitlines content).length,
        ∃ sp ∈ pat ((pySplitlines content).get ⟨n, hn⟩),
          iss = pattern_issue digest fp rule (pySplitlines content) (n + 1) sp ∧
          iss.location.line_start = n + 1 ∧
          iss.location.line_end = n + 1 ∧
          iss.location.column_start = some sp.1 ∧
          iss.location.column_end = some sp.2 ∧
          iss.id = digest (fp ++ ":" ++ rule.id ++ ":" ++ toString (n + 1)) ∧
          iss.rule_id = some rule.id := by
  rw [mem_match_file_iff]
  constructor
  · rintro ⟨rule, hr, hl, pat, hc, n, hn, sp, hsp, rfl⟩
    exact ⟨rule, hr, hl, pat, hc, n, hn, sp, hsp, rfl, rfl, rfl, rfl, rfl, rfl, rfl⟩
  · rintro ⟨rule, hr, hl, pat, hc, n, hn, sp, hsp, h, -⟩
    exact ⟨rule, hr, hl, pat, hc, n, hn, sp, hsp, h⟩

theorem C6_witness :
    c6_issue ∈ match_file c6_state (fun s => s) "f.py" "x" "python" :=
(C6_match_file_characterization c6_state (fun s => s) "f.py" "x" "python" c6_issue).mpr
  ⟨c6_rule, List.mem_cons_self _ _, by decide, c6_pat, rfl, 0, by decide, (0, 1),
    by decide, rfl, rfl, rfl, rfl, rfl, rfl, rfl⟩

/-- C7: a file containing a line with the hardcoded-password text, analyzed
as one of the languages the rule lists with the compiled default catalog
(whose password pattern matches every line containing that text), yields a
CRITICAL SECURITY issue with rule id hardcoded-password at that line. -/
theorem C7_hardcoded_password_detected (digest : String → String)
    (compiled : String → Option (String → List (Nat × Nat)))
    (pw : String → List (Nat × Nat)) (fp content lang : String) (n : Nat)
    (hn : n < (pySplitlines content).length)
    (hcomp : compiled "hardcoded-password" = some pw)
    (hlang : lang ∈ ["python", "javascript", "typescript", "java"])
    (hpw : ∀ line : String, (∃ pre post, line = pre ++ pw_text ++ post) → pw line ≠ [])
    (hline : ∃ pre post, (pySplitlines content).get ⟨n, hn⟩ = pre ++ pw_text ++ post) :
    ∃ iss ∈ match_file ⟨default_rules, compiled⟩ digest fp content lang,
      iss.severity = IssueSeverity.critical ∧
      iss.category = IssueCategory.security ∧
      iss.rule_id = some "hardcoded-password" ∧
      iss.location.line_start = n + 1 := by
  have hne : pw ((pySplitlines content).get ⟨n, hn⟩) ≠ [] := hpw _ hline
  rcases List.exists_mem_of_ne_nil _ hne with ⟨sp, hsp⟩
  refine ⟨pattern_issue digest fp hardcoded_password_rule (pySplitlines content) (n + 1) sp,
    ?_, rfl, rfl, rfl, rfl⟩
  exact (mem_match_file_iff _ _ _ _ _ _).mpr
    ⟨hardcoded_password_rule, List.mem_cons_self _ _, hlang, pw, hcomp, n, hn, sp, hsp, rfl⟩

theorem C7_witness :
    ∃ iss ∈ match_file ⟨default_rules, fun _ => some (fun _ => [(0, 29)])⟩
        (fun s => s) "f.py" pw_text "python",
      iss.severity = IssueSeverity.critical ∧
      iss.category = IssueCategory.security ∧
      iss.rule_id = some "hardcoded-password" ∧
      iss.location.line_start = 1 :=
C7_hardcoded_password_detected (fun s => s) (fun _ => some (fun _ => [(0, 29)]))
  (fun _ => [(0, 29)]) "f.py" pw_text "python" 0 (by decide) rfl (by decide)
  (fun _ _ => by simp) ⟨"", "", by decide⟩

/-- C9: two distinct match spans of the same rule on the same line produce
two distinct issues (their column spans differ) whose id fields are equal,
because the id depends only on (file path, rule id, line). -/
theorem C9_same_line_matches_share_id (m : PatternMatcherState)
    (digest : String → String) (fp content lang : String) (rule : PatternRule)
    (pat : String → List (Nat × Nat)) (n : Nat)
    (hn : n < (pySplitlines content).length) (sp1 sp2 : Nat × Nat)
    (hr : rule ∈ m.rules) (hl : lang ∈ rule.languages)
    (hc : m.compiled rule.id = some pat)
    (h1 : sp1 ∈ pat ((pySplitlines content).get ⟨n, hn⟩))
    (h2 : sp2 ∈ pat ((pySplitlines content).get ⟨n, hn⟩))
    (hne : sp1 ≠ sp2) :
    pattern_issue digest fp rule (pySplitlines content) (n + 1) sp1
      ∈ match_file m digest fp content lang ∧
    pattern_issue digest fp rule (pySplitlines content) (n + 1) sp2
      ∈ match_file m digest fp content lang ∧
    pattern_issue digest fp rule (pySplitlines content) (n + 1) sp1
      ≠ pattern_issue digest fp rule (pySplitlines content) (n + 1) sp2 ∧
    (pattern_issue digest fp rule (pySplitlines content) (n + 1) sp1).id
      = (pattern_issue digest fp rule (pySplitlines content) (n + 1) sp2).id := by
  refine ⟨(mem_match_file_iff _ _ _ _ _ _).mpr ⟨rule, hr, hl, pat, hc, n, hn, sp1, h1, rfl⟩,
    (mem_match_file_iff _ _ _ _ _ _).mpr ⟨rule, hr, hl, pat, hc, n, hn, sp2, h2, rfl⟩,
    ?_, rfl⟩
  intro he
  apply hne
  have hcs := congrArg (fun i => i.location.column_start) he
  have hce := congrArg (fun i => i.location.column_end) he
  simp only [pattern_issue, Option.some.injEq] at hcs hce
  exact Prod.ext hcs hce

theorem C9_witness :
    pattern_issue (fun s => s) "f.py" c6_rule (pySplitlines "xx") 1 (0, 1)
      ∈ match_file c9_state (fun s => s) "f.py" "xx" "python" ∧
    pattern_issue (fun s => s) "f.py" c6_rule (pySplitlines "xx") 1 (1, 2)
      ∈ match_file c9_state (fun s => s) "f.py" "xx" "python" ∧
    pattern_issue (fun s => s) "f.py" c6_rule (pySplitlines "xx") 1 (0, 1)
      ≠ pattern_issue (fun s => s) "f.py" c6_rule (pySplitlines "xx") 1 (1, 2) ∧
    (pattern_issue (fun s => s) "f.py" c6_rule (pySplitlines "xx") 1 (0, 1)).id
      = (pattern_issue (fun s => s) "f.py" c6_rule (pySplitlines "xx") 1 (1, 2)).id :=
C9_same_line_matches_share_id c9_state (fun s => s) "f.py" "xx" "python" c6_rule c9_pat 0
  (by decide) (0, 1) (1, 2) (List.mem_cons_self _ _) (by decide) rfl
  (by decide) (by decide) (by decide)

/-- C5 counterexample: a run over one file whose analyzer failed (record
success = false) but whose pattern matching succeeded ends with a final
result whose only FileRecord has success = false and a non-empty issue list,
because engine.analyze_file appends pattern issues regardless of the success
flag and the re-partitioning hands them back to the record. -/
theorem C5_counterexample :
    (analyze_path_model "proj" [c5_record]).file_analyses.map
        (fun fa => (fa.success, fa.issues.length)) = [(false, 1)] := by
  decide

/-- C5 amended: in the final result a FileRecord with success = false can
carry issues; its issue list is exactly the ranked deduplicated issue list
filtered to its file path (so it is empty only when no surviving issue has
that path, e.g. when no analyzer existed or pattern matching also failed). -/
theorem C5_failed_record_issues_are_ranked_at_path (records : List FileAnalysis)
    (ranked : List Issue) (fa : FileAnalysis)
    (hmem : fa ∈ update_file_analyses records ranked)
    (hfail : fa.success = false) :
    fa.issues = ranked.filter (fun i => decide (i.location.file_path = fa.file_path)) := by
  rcases List.mem_map.mp hmem with ⟨r, hr, rfl⟩
  rfl

theorem C5_witness :
    ({ c5_failed with issues := [c5_pattern_issue] } : FileAnalysis).issues
      = [c5_pattern_issue].filter (fun i => decide (i.location.file_path =
          ({ c5_failed with issues := [c5_pattern_issue] } : FileAnalysis).file_path)) :=
C5_failed_record_issues_are_ranked_at_path [c5_failed] [c5_pattern_issue]
  { c5_failed with issues := [c5_pattern_issue] } (by decide) rfl

/-- C8: when ast.parse raises a SyntaxError (reporting line n >= 1),
PythonAnalyzer.analyze_file returns success = true with exactly one issue,
CRITICAL / BUG, at the reported line and column; and success = false arises
exactly from the non-parse exception branch. -/
theorem C8_parse_error_is_a_result (digest : String → String)
    (snippet fp : String) (e : PySyntaxError) (n : Nat)
    (hl : e.lineno = some n) (h1 : 1 ≤ n) :
    ((analyzer_analyze_file digest snippet fp (PyAnalyzeOutcome.parseError e)).success
        = true ∧
     (analyzer_analyze_file digest snippet fp (PyAnalyzeOutcome.parseError e)).issues.length
        = 1 ∧
     ∀ iss ∈ (analyzer_analyze_file digest snippet fp (PyAnalyzeOutcome.parseError e)).issues,
       iss.severity = IssueSeverity.critical ∧
       iss.category = IssueCategory.bug ∧
       iss.location.line_start = n ∧
       iss.location.line_end = n ∧
       iss.location.column_start = e.offset) ∧
    ∀ out : PyAnalyzeOutcome,
      (analyzer_analyze_file digest snippet fp out).success = false ↔
        ∃ msg, out = PyAnalyzeOutcome.otherError msg := by
  have hn0 : linenoOr1 e.lineno = n := by
    rw [hl]
    show (if n = 0 then 1 else n) = n
    rw [if_neg (by omega)]
  refine ⟨⟨rfl, rfl, ?_⟩, ?_⟩
  · intro iss hiss
    rcases List.mem_singleton.mp hiss with rfl
    exact ⟨rfl, rfl, hn0, hn0, rfl⟩
  · intro out
    cases out with
    | parsed issues metrics => simp [analyzer_analyze_file]
    | parseError e2 => simp [analyzer_analyze_file]
    | otherError msg => simp [analyzer_analyze_file]

theorem C8_witness :
    ((analyzer_analyze_file (fun s => s) "snip" "f.py"
        (PyAnalyzeOutcome.parseError ⟨"invalid syntax", some 3, some 5⟩)).success
        = true ∧
     (analyzer_analyze_file (fun s => s) "snip" "f.py"
        (PyAnalyzeOutcome.parseError ⟨"invalid syntax", some 3, some 5⟩)).issues.length
        = 1 ∧
     ∀ iss ∈ (analyzer_analyze_file (fun s => s) "snip" "f.py"
        (PyAnalyzeOutcome.parseError ⟨"invalid syntax", some 3, some 5⟩)).issues,
       iss.severity = IssueSeverity.critical ∧
       iss.category = IssueCategory.bug ∧
       iss.location.line_start = 3 ∧
       iss.location.line_end = 3 ∧
       iss.location.column_start = (⟨"invalid syntax", some 3, some 5⟩ : PySyntaxError).offset) ∧
    ∀ out : PyAnalyzeOutcome,
      (analyzer_analyze_file (fun s => s) "snip" "f.py" out).success = false ↔
        ∃ msg, out = PyAnalyzeOutcome.otherError msg :=
C8_parse_error_is_a_result (fun s => s) "snip" "f.py" ⟨"invalid syntax", some 3, some 5⟩ 3
  rfl (by omega)

lemma sum_map_add_nat {α : Type} (f g : α → Nat) (l : List α) :
    (l.map (fun x => f x + g x)).sum = (l.map f).sum + (l.map g).sum := by
  induction l with
  | nil => rfl
  | cons x t ih =>
    simp only [List.map_cons, List.sum_cons, ih]
    omega

lemma sum_indicator_one {κ : Type} [DecidableEq κ] (keys : List κ) (x : κ)
    (hnd : keys.Nodup) (hx : x ∈ keys) :
    (keys.map (fun k => if x = k then 1 else 0)).sum = 1 := by
  induction keys with
  | nil => cases hx
  | cons k t ih =>
    rcases List.mem_cons.mp hx with rfl | hxt
    · have hxnot : x ∉ t := (List.nodup_cons.mp hnd).1
      have hz : (t.map (fun k => if x = k then 1 else 0)).sum = 0 := by
        apply List.sum_eq_zero
        intro y hy
        rcases List.mem_map.mp hy with ⟨k2, hk2, rfl⟩
        rw [if_neg (fun he => hxnot (by rw [he]; exact hk2))]
      simp [hz]
    · have hne : x ≠ k := fun he => (List.nodup_cons.mp hnd).1 (he ▸ hxt)
      simp [hne, ih (List.nodup_cons.mp hnd).2 hxt]

/-- Partitioning a list by a key over a duplicate-free covering list of keys
accounts for every element exactly once. -/
lemma sum_length_filter_partition {α κ : Type} [DecidableEq κ] (key : α → κ)
    (keys : List κ) (l : List α) (hnd : keys.Nodup)
    (hcov : ∀ a ∈ l, key a ∈ keys) :
    (keys.map (fun k => (l.filter (fun a => decide (key a = k))).length)).sum
      = l.length := by
  induction l with
  | nil => simp
  | cons a t ih =>
    have hsplit : ∀ k : κ,
        ((a :: t).filter (fun x => decide (key x = k))).length
          = (if key a = k then 1 else 0)
            + (t.filter (fun x => decide (key x = k))).length := by
      intro k
      by_cases h : key a = k
      · simp [List.filter, h]
        omega
      · simp [List.filter, h]
    rw [List.map_congr_left (fun k _ => hsplit k), sum_map_add_nat,
      sum_indicator_one keys (key a) hnd (hcov a (List.mem_cons_self _ _)),
      ih (fun x hx => hcov x (List.mem_cons_of_mem _ hx))]
    simp
    omega

lemma foldl_add_file_analysis (fas : List FileAnalysis) (r : AnalysisResult) :
    (fas.foldl add_file_analysis r).file_analyses = r.file_analyses ++ fas ∧
    (fas.foldl add_file_analysis r).total_issues
      = r.total_issues + (fas.map (fun fa => fa.issues.length)).sum := by
  induction fas generalizing r with
  | nil => simp
  | cons fa rest ih =>
    rcases ih (add_file_analysis r fa) with ⟨h1, h2⟩
    constructor
    · rw [List.foldl_cons, h1]
      simp [add_file_analysis]
    · rw [List.foldl_cons, h2]
      simp only [add_file_analysis, List.map_cons, List.sum_cons]
      omega

lemma length_get_all_issues (fas : List FileAnalysis) :
    (get_all_issues fas).length = (fas.map (fun fa => fa.issues.length)).sum := by
  rw [get_all_issues, List.length_flatten, List.map_map]
  rfl

lemma get_all_update_file_analyses (records : List FileAnalysis)
    (ranked : List Issue) :
    get_all_issues (update_file_analyses records ranked)
      = (records.map (fun fa =>
          ranked.filter (fun i => decide (i.location.file_path = fa.file_path)))).flatten := by
  rw [get_all_issues, update_file_analyses, List.map_map]
  rfl

lemma length_get_all_update (records : List FileAnalysis) (ranked : List Issue)
    (hnd : (records.map (fun fa => fa.file_path)).Nodup)
    (hcov : ∀ i ∈ ranked, i.location.file_path ∈ records.map (fun fa => fa.file_path)) :
    (get_all_issues (update_file_analyses records ranked)).length = ranked.length := by
  rw [get_all_update_file_analyses, List.length_flatten, List.map_map]
  have hcomp : (records.map (List.length ∘ fun fa =>
        ranked.filter (fun i => decide (i.location.file_path = fa.file_path))))
      = (records.map (fun fa => fa.file_path)).map
          (fun k => (ranked.filter (fun i => decide (i.location.file_path = k))).length) := by
    rw [List.map_map]
    rfl
  rw [hcomp]
  exact sum_length_filter_partition (fun i => i.location.file_path) _ ranked hnd hcov

lemma severity_mem_severity_list (s : IssueSeverity) : s ∈ severity_list := by
  cases s <;> simp [severity_list]

/-- The per-severity counts of any record list partition its pooled issues. -/
lemma sum_severity_counts (fas : List FileAnalysis) :
    (severity_list.map (fun s => get_severity_counts fas s)).sum
      = (get_all_issues fas).length := by
  have h : ∀ s ∈ severity_list, get_severity_counts fas s
      = ((get_all_issues fas).filter (fun i => decide (i.severity = s))).length := by
    intro s _
    rw [get_severity_counts, List.countP_eq_length_filter]
  rw [List.map_congr_left h]
  exact sum_length_filter_partition (fun i => i.severity) severity_list
    (get_all_issues fas) (by decide) (fun i _ => severity_mem_severity_list i.severity)

lemma mem_get_all_issues (fas : List FileAnalysis) (i : Issue) :
    i ∈ get_all_issues fas ↔ ∃ fa ∈ fas, i ∈ fa.issues := by
  rw [get_all_issues, List.mem_flatten]
  constructor
  · rintro ⟨l, hl, hi⟩
    rcases List.mem_map.mp hl with ⟨fa, hfa, rfl⟩
    exact ⟨fa, hfa, hi⟩
  · rintro ⟨fa, hfa, hi⟩
    exact ⟨fa.issues, List.mem_map.mpr ⟨fa, hfa, rfl⟩, hi⟩

lemma ranked_paths_covered (fas : List FileAnalysis)
    (hpath : ∀ fa ∈ fas, ∀ i ∈ fa.issues, i.location.file_path = fa.file_path) :
    ∀ i ∈ rank_issues (deduplicate_issues (get_all_issues fas)),
      i.location.file_path ∈ fas.map (fun fa => fa.file_path) := by
  intro i hi
  have h1 : i ∈ deduplicate_issues (get_all_issues fas) :=
    (List.perm_insertionSort rank_le _).mem_iff.mp hi
  have h2 : i ∈ get_all_issues fas := (dedupGo_sublist [] _).subset h1
  rcases (mem_get_all_issues fas i).mp h2 with ⟨fa, hfa, hifa⟩
  exact List.mem_map.mpr ⟨fa, hfa, (hpath fa hfa i hifa).symm⟩

/-- C10: after a run, total_issues is the pre-deduplication sum of per-file
issue counts; the issues actually present in the final records number exactly
the deduplicated issues, the per-severity summary counts sum to that same
number, and whenever deduplication removed at least one issue the stored
total_issues strictly exceeds the issues actually present. -/
theorem C10_total_issues_overcounts (p : String) (fas : List FileAnalysis)
    (hpath : ∀ fa ∈ fas, ∀ i ∈ fa.issues, i.location.file_path = fa.file_path)
    (hnodup : (fas.map (fun fa => fa.file_path)).Nodup)
    (hdup : (deduplicate_issues (get_all_issues fas)).length
              < (get_all_issues fas).length) :
    (analyze_path_model p fas).total_issues = (get_all_issues fas).length ∧
    (get_all_issues (analyze_path_model p fas).file_analyses).length
      = (deduplicate_issues (get_all_issues fas)).length ∧
    (severity_list.map (fun s =>
        get_severity_counts (analyze_path_model p fas).file_analyses s)).sum
      = (get_all_issues (analyze_path_model p fas).file_analyses).length ∧
    (get_all_issues (analyze_path_model p fas).file_analyses).length
      < (analyze_path_model p fas).total_issues := by
  have hfold := foldl_add_file_analysis fas (empty_result p)
  have hfl : (fas.foldl add_file_analysis (empty_result p)).file_analyses = fas := by
    rw [hfold.1]
    simp [empty_result]
  have hti : (analyze_path_model p fas).total_issues = (get_all_issues fas).length := by
    show (fas.foldl add_file_analysis (empty_result p)).total_issues
      = (get_all_issues fas).length
    rw [hfold.2, length_get_all_issues]
    simp [empty_result]
  have hfiles : (analyze_path_model p fas).file_analyses
      = update_file_analyses fas
          (rank_issues (deduplicate_issues (get_all_issues fas))) := by
    show update_file_analyses (fas.foldl add_file_analysis (empty_result p)).file_analyses
        (rank_issues (deduplicate_issues
          (get_all_issues (fas.foldl add_file_analysis (empty_result p)).file_analyses)))
      = update_file_analyses fas (rank_issues (deduplicate_issues (get_all_issues fas)))
    rw [hfl]
  have hlen : (get_all_issues (analyze_path_model p fas).file_analyses).length
      = (deduplicate_issues (get_all_issues fas)).length := by
    rw [hfiles, length_get_all_update fas _ hnodup (ranked_paths_covered fas hpath)]
    exact (List.perm_insertionSort rank_le _).length_eq
  refine ⟨hti, hlen, sum_severity_counts _, ?_⟩
  rw [hlen, hti]
  exact hdup

theorem C10_witness :
    (analyze_path_model "proj" [c10_fa]).total_issues
        = (get_all_issues [c10_fa]).length ∧
    (get_all_issues (analyze_path_model "proj" [c10_fa]).file_analyses).length
      = (deduplicate_issues (get_all_issues [c10_fa])).length ∧
    (severity_list.map (fun s =>
        get_severity_counts (analyze_path_model "proj" [c10_fa]).file_analyses s)).sum
      = (get_all_issues (analyze_path_model "proj" [c10_fa]).file_analyses).length ∧
    (get_all_issues (analyze_path_model "proj" [c10_fa]).file_analyses).length
      < (analyze_path_model "proj" [c10_fa]).total_issues :=
C10_total_issues_overcounts "proj" [c10_fa] (by decide) (by decide) (by decide)

end CodeSage
